import Mathlib

/-!
Verification development for the BOM reconciliation core
(`modules/bom_comparator.py`, `modules/column_mapper.py`, `config.py`).

Python strings are modelled as lists of Unicode code points (`List Nat`);
Python scalar cell values as `PyVal` (a float, the NaN/None missing marker,
or a string).  Python floats are modelled as exact rationals; runtime
helpers (`str.strip`, `str.upper`, `float(...)` parsing, `str(float)` and
format-spec rendering, `round`) are given explicit executable models below,
each annotated with what it models.
-/

/-- A Python string, as its list of Unicode code points. -/
abbrev Str := List Nat

/-- Code points of a Lean string literal, for readable `Str` constants. -/
def lit (s : String) : Str := s.toList.map Char.toNat

/-- A scalar cell value of a pandas DataFrame: a float (modelled as an exact
rational), the missing marker (NaN / None, detected by `pd.isna`), or a
string. -/
inductive PyVal where
  | num (q : ℚ)
  | nan
  | str (s : Str)
deriving DecidableEq

/-- Model of `pd.isna` on a scalar. -/
def pyIsNa : PyVal → Bool
  | .nan => true
  | _ => false

/-- Whitespace code points removed by Python `str.strip()` (ASCII subset). -/
def isSpaceCp (n : Nat) : Bool :=
  n == 32 || n == 9 || n == 10 || n == 13 || n == 11 || n == 12

/-- Model of Python `str.strip()`: drop leading and trailing whitespace. -/
def pyStrip (s : Str) : Str :=
  ((s.dropWhile isSpaceCp).reverse.dropWhile isSpaceCp).reverse

/-- Uppercase a code point (ASCII range), modelling `str.upper()` per char. -/
def upCp (n : Nat) : Nat := if 97 ≤ n && n ≤ 122 then n - 32 else n

/-- Model of Python `str.upper()` (ASCII range). -/
def pyUpper (s : Str) : Str := s.map upCp

/-- Lowercase a code point (ASCII range), modelling `str.lower()` per char. -/
def lowCp (n : Nat) : Nat := if 65 ≤ n && n ≤ 90 then n + 32 else n

/-- Model of Python `str.lower()` (ASCII range). -/
def pyLower (s : Str) : Str := s.map lowCp

/-- Is `p` a leading segment of `s`? (helper for the substring test). -/
def cpPre : Str → Str → Bool
  | [], _ => true
  | _ :: _, [] => false
  | a :: p, b :: s => a == b && cpPre p s

/-- Model of the Python `in` operator on strings: does `p` occur
contiguously inside `s`?  The empty string occurs in every string. -/
def cpSub : Str → Str → Bool
  | p, [] => p.isEmpty
  | p, b :: s => cpPre p (b :: s) || cpSub p s

/-- Decimal digits of a natural number. -/
def natStr (n : Nat) : Str := (Nat.toDigits 10 n).map Char.toNat

/-- Decimal rendering of an integer (minus sign is code point 45). -/
def intStr (i : Int) : Str := if i < 0 then 45 :: natStr i.natAbs else natStr i.natAbs

/-- Left-pad the decimal rendering of `m` with zeros to `k` digits. -/
def padZeros (k : Nat) (m : Nat) : Str :=
  let d := natStr m
  List.replicate (k - d.length) 48 ++ d

/-- Smallest `k ≤ 30` with `den ∣ 10 ^ k`: the length of the exact decimal
expansion of a rational with denominator `den`, when one exists. -/
def decExpOf (den : Nat) : Option Nat := (List.range 31).find? (fun k => den ∣ 10 ^ k)

/-- Decimal rendering of a nonnegative rational: exact when the denominator
divides a power of ten, truncated at 17 fractional digits otherwise
(Python float repr keeps 17 significant digits at most). -/
def ratReprPos (q : ℚ) : Str :=
  if q.den = 1 then natStr q.num.natAbs ++ lit ".0"
  else
    match decExpOf q.den with
    | some k =>
        let m := q.num.natAbs * 10 ^ k / q.den
        natStr (m / 10 ^ k) ++ [46] ++ padZeros k (m % 10 ^ k)
    | none =>
        let m := q.num.natAbs * 10 ^ 17 / q.den
        natStr (m / 10 ^ 17) ++ [46] ++ padZeros 17 (m % 10 ^ 17)

/-- Model of Python `str(x)` / `repr(x)` for a float `x`: integral floats
render with a trailing `.0`; other floats as their decimal expansion. -/
def ratRepr (q : ℚ) : Str := if q < 0 then 45 :: ratReprPos (-q) else ratReprPos q

/-- Strip trailing zero digits, keeping at least one digit. -/
def stripTZ (s : Str) : Str :=
  let t := (s.reverse.dropWhile (fun c => c == 48)).reverse
  if t = [] then [48] else t

/-- Decimal rendering of a nonnegative rational in the compact style of the
Python `:g` format spec for the magnitudes arising here: integral values
render with no decimal point, others with their fractional digits and no
trailing zeros (values needing scientific notation are out of scope of the
claims and are rendered as plain decimals, truncated at 6 fractional digits
when no exact expansion exists). -/
def formatGPos (q : ℚ) : Str :=
  if q.den = 1 then natStr q.num.natAbs
  else
    match decExpOf q.den with
    | some k =>
        let m := q.num.natAbs * 10 ^ k / q.den
        natStr (m / 10 ^ k) ++ [46] ++ padZeros k (m % 10 ^ k)
    | none =>
        let m := q.num.natAbs * 10 ^ 6 / q.den
        natStr (m / 10 ^ 6) ++ [46] ++ stripTZ (padZeros 6 (m % 10 ^ 6))

/-- Model of Python `format(x, "g")` (compact general number format). -/
def formatG (q : ℚ) : Str := if q < 0 then 45 :: formatGPos (-q) else formatGPos q

/-- Round-half-even of a rational to an integer, the rule used by Python
`round` (applied here to the exact rational value). -/
def rheInt (y : ℚ) : ℤ :=
  let f : ℤ := Int.fdiv y.num y.den
  let r := y - f
  if r < 1 / 2 then f else if 1 / 2 < r then f + 1 else if f % 2 = 0 then f else f + 1

/-- Model of Python `round(x, 2)`. -/
def pyRound2 (x : ℚ) : ℚ := rheInt (x * 100) / 100

/-- Model of Python `f"{x:.2f}"`: round half-even to two decimals and render
with exactly two fractional digits. -/
def fmt2 (q : ℚ) : Str :=
  let n := rheInt (q * 100)
  let body := natStr (n.natAbs / 100) ++ [46] ++ padZeros 2 (n.natAbs % 100)
  if n < 0 then 45 :: body else body

/-- All code points are decimal digits. -/
def allDigits (s : Str) : Bool := s.all (fun n => 48 ≤ n && n ≤ 57)

/-- Numeric value of a digit string (most significant digit first). -/
def digitsVal (s : Str) : Nat := s.foldl (fun acc d => acc * 10 + (d - 48)) 0

/-- Split a string at its first `.` (code point 46): the part before it and,
when a dot is present, the part after it. -/
def splitDot : Str → Str × Option Str
  | [] => ([], none)
  | c :: rest =>
      if c = 46 then ([], some rest)
      else
        let r := splitDot rest
        (c :: r.1, r.2)

/-- Parse an unsigned decimal literal (`123`, `123.45`, `.5`, `5.`). -/
def parseUnsigned (s : Str) : Option ℚ :=
  match splitDot s with
  | (ip, none) =>
      if ip ≠ [] ∧ allDigits ip then some (digitsVal ip) else none
  | (ip, some fp) =>
      if (ip ≠ [] ∨ fp ≠ []) ∧ allDigits ip ∧ allDigits fp then
        some ((digitsVal ip : ℚ) + (digitsVal fp : ℚ) / 10 ^ fp.length)
      else none

/-- Model of Python `float(s)` on a string (and of the parsing performed by
`pd.to_numeric`): optional surrounding whitespace and sign, then a plain
decimal literal.  Exponent, infinity and nan spellings are out of the scope
of the claims and are treated as parse failures. -/
def parseFloat (s : Str) : Option ℚ :=
  match pyStrip s with
  | 45 :: rest => (parseUnsigned rest).map Neg.neg
  | 43 :: rest => parseUnsigned rest
  | t => parseUnsigned t

/-- Model of Python `str(x)` on a cell value (`pd.isna` values print as
`nan`, matching `str(float("nan"))`). -/
def pyStr : PyVal → Str
  | .num q => ratRepr q
  | .nan => lit "nan"
  | .str s => s

/-!
Embedding of `modules/bom_comparator.py`.
-/

/-- `QUANTITY_TOLERANCE` from `config.py`. -/
def QUANTITY_TOLERANCE : ℚ := 1 / 100

/-- The `unit_mappings` table of `normalize_unit`, in source order:
canonical unit paired with its list of recognized spellings. -/
def unitTable : List (Str × List Str) :=
  [ (lit "PCS", [lit "PCS", lit "PC", lit "PIECE", lit "PIECES", lit "PZA",
      lit "PZAS", lit "PIEZA", lit "PIEZAS"]),
    (lit "KG", [lit "KG", lit "KILOGRAM", lit "KILOGRAMS", lit "KILO", lit "KILOS"]),
    (lit "M", [lit "M", lit "METER", lit "METERS", lit "METRO", lit "METROS"]),
    (lit "L", [lit "L", lit "LITER", lit "LITERS", lit "LITRO", lit "LITROS"]),
    (lit "G", [lit "G", lit "GRAM", lit "GRAMS", lit "GRAMO", lit "GRAMOS"]),
    (lit "CM", [lit "CM", lit "CENTIMETER", lit "CENTIMETERS", lit "CENTIMETRO",
      lit "CENTIMETROS"]),
    (lit "MM", [lit "MM", lit "MILLIMETER", lit "MILLIMETERS", lit "MILIMETRO",
      lit "MILIMETROS"]),
    (lit "FT", [lit "FT", lit "FOOT", lit "FEET", lit "PIE", lit "PIES"]),
    (lit "IN", [lit "IN", lit "INCH", lit "INCHES", lit "PULGADA", lit "PULGADAS"]),
    (lit "LB", [lit "LB", lit "POUND", lit "POUNDS", lit "LIBRA", lit "LIBRAS"]) ]

/-- `normalize_unit` of `bom_comparator.py`: missing values normalize to the
empty string; otherwise the value is rendered with `str`, stripped and
upper-cased, looked up in the synonym table (first matching entry wins, as
in the source's loop over the dict), and returned unchanged when no entry
matches. -/
def normalize_unit (v : PyVal) : Str :=
  if pyIsNa v then []
  else
    match unitTable.find? (fun e => decide (pyUpper (pyStrip (pyStr v)) ∈ e.2)) with
    | some e => e.1
    | none => pyUpper (pyStrip (pyStr v))

/-- The coercion at the top of `validate_quantity`:
`float(x) if not pd.isna(x) else 0.0`.  `none` models a raised
`ValueError`/`TypeError` (a string that does not parse as a float). -/
def coerceQ : PyVal → Option ℚ
  | .nan => some 0
  | .num q => some q
  | .str s => parseFloat s

/-- `validate_quantity` of `bom_comparator.py`.  When either coercion
raises, the source's `except` branch compares `str(...)`-renderings after
trimming. -/
def validate_quantity (v1 v2 : PyVal) (tol : ℚ) : Bool :=
  match coerceQ v1, coerceQ v2 with
  | some a, some b =>
      if a = 0 ∧ b = 0 then true
      else if a = 0 ∨ b = 0 then false
      else decide (|a - b| / max a b ≤ tol)
  | _, _ => decide (pyStrip (pyStr v1) = pyStrip (pyStr v2))

/-- One input row of a BOM DataFrame, restricted to the four mapped columns
read by `compare_boms` (part number, quantity, unit, description cells). -/
structure InRow where
  part : PyVal
  qty : PyVal
  unit : PyVal
  desc : PyVal
deriving DecidableEq

/-- One side's input to `compare_boms`: its rows plus whether the mapping
assigned a unit column (`if unit_col:`) and a description column
(`if desc_col:`).  The quantity and part columns are assumed mapped: the
source indexes them unconditionally (an unmapped quantity column would make
`groupby(...).agg` raise before any row is produced). -/
structure Dataset where
  rows : List InRow
  unitMapped : Bool
  descMapped : Bool
deriving DecidableEq

/-- The grouping key `prepare_df` computes per row: the raw part cell and
the normalized unit (`"UNASSIGNED"` when no unit column is mapped). -/
def gKey (d : Dataset) (r : InRow) : PyVal × Str :=
  (r.part, if d.unitMapped then normalize_unit r.unit else lit "UNASSIGNED")

/-- Quantity coercion of `prepare_df`:
`pd.to_numeric(col, errors="coerce").fillna(0)`. -/
def coerceQty : PyVal → ℚ
  | .num q => q
  | .nan => 0
  | .str s => (parseFloat s).getD 0

/-- The `"first"` aggregator of pandas `groupby`: first non-missing value of
the group, missing when all values are missing. -/
def firstDesc (l : List PyVal) : PyVal := (l.find? (fun v => !pyIsNa v)).getD PyVal.nan

/-- A grouped line produced by `prepare_df`: one `(part, normalized unit)`
group with its summed quantity and representative description. -/
structure GLine where
  rawPart : PyVal
  normUnit : Str
  qty : ℚ
  desc : PyVal
deriving DecidableEq

/-- Recursion of `dedupFirst` over the remaining list, carrying the
elements already seen. -/
def dedupFirstAux {α : Type} [DecidableEq α] : List α → List α → List α
  | [], _ => []
  | a :: as, seen =>
      if a ∈ seen then dedupFirstAux as seen else a :: dedupFirstAux as (a :: seen)

/-- First-occurrence deduplication (the distinct keys of a grouping). -/
def dedupFirst {α : Type} [DecidableEq α] (l : List α) : List α := dedupFirstAux l []

/-- `prepare_df` of `compare_boms`: coerce quantities, attach the normalized
unit, and group by the raw part cell and normalized unit, summing the
quantities and keeping the first non-missing description.  Rows whose part
cell is missing are dropped, as pandas `groupby` drops missing keys.
Group keys are listed in first-appearance order; pandas sorts them, which
only affects which group a later strip-equal lookup sees first, a tie no
claim exercises. -/
def groupedLines (d : Dataset) : List GLine :=
  let rows := d.rows.filter (fun r => !pyIsNa r.part)
  let keys := dedupFirst (rows.map (gKey d))
  keys.map (fun k =>
    let grp := rows.filter (fun r => decide (gKey d r = k))
    { rawPart := k.1, normUnit := k.2,
      qty := (grp.map (fun r => coerceQty r.qty)).sum,
      desc := firstDesc (grp.map InRow.desc) })

/-- A reconciliation key: trimmed `str`-rendered part number and normalized
unit, as in `set(zip(grouped[part].astype(str).str.strip(), grouped["__norm_unit"]))`. -/
abbrev RKey := Str × Str

/-- One side's key set. -/
def sideKeys (d : Dataset) : List RKey :=
  (groupedLines d).map (fun g => (pyStrip (pyStr g.rawPart), g.normUnit))

/-- `all_keys = sap_keys.union(sb_keys)` as a finite set. -/
def allKeys (d1 d2 : Dataset) : Finset RKey :=
  (sideKeys d1).toFinset ∪ (sideKeys d2).toFinset

/-- The per-key lookup of `compare_boms`: the boolean mask over the grouped
frame followed by `iloc[0]`, i.e. the first grouped line whose trimmed
`str`-rendered part and normalized unit equal the key. -/
def lookupG (d : Dataset) (k : RKey) : Option GLine :=
  (groupedLines d).find?
    (fun g => decide (pyStrip (pyStr g.rawPart) = k.1 ∧ g.normUnit = k.2))

/-- The tolerance test of `compare_boms`:
`abs(difference) <= max(q1, q2) * QUANTITY_TOLERANCE if max(q1, q2) > 0
else (q1 == q2)`. -/
def tolOkB (q1 q2 : ℚ) : Bool :=
  if 0 < max q1 q2 then decide (|q1 - q2| ≤ max q1 q2 * QUANTITY_TOLERANCE)
  else decide (q1 = q2)

/-- One output row of `compare_boms`, with the source's column names. -/
structure RRow where
  PartNumber : Str
  Status : Str
  Issues : Str
  SAPQuantity : Option ℚ
  HPLMQuantity : Option ℚ
  SAPUnit : Str
  HPLMUnit : Str
  SAPDescription : PyVal
  HPLMDescription : PyVal
deriving DecidableEq

/-- The classification branch of the `compare_boms` loop body: the
`(Status, Issues)` pair as a function of the two quantities (`q1` the
reference/SAP side, `q2` the comparison/HPLM side). -/
def classifyB (q1 q2 : ℚ) : Str × Str :=
  if tolOkB q1 q2 then (lit "✅ Correcto", lit "OK")
  else if 0 < q1 - q2 then
    (lit "❌ Falta", lit "Falta " ++ formatG (q1 - q2) ++ lit " en HPLM")
  else (lit "⚠️ Sobra", lit "Sobra " ++ formatG |q1 - q2| ++ lit " en HPLM")

/-- The loop body of `compare_boms` for one key: look up each side's grouped
line, record quantities (`None` when the side lacks the key), display the
key's normalized unit on both sides (empty when `"UNASSIGNED"`), and
classify by the signed difference `SAP − HPLM` against the tolerance band. -/
def emitRow (d1 d2 : Dataset) (k : RKey) : RRow :=
  let g1 := lookupG d1 k
  let g2 := lookupG d2 k
  let q1 : ℚ := (g1.map GLine.qty).getD 0
  let q2 : ℚ := (g2.map GLine.qty).getD 0
  let desc1 : PyVal :=
    match g1 with
    | some g => if d1.descMapped then g.desc else PyVal.str []
    | none => PyVal.str []
  let desc2 : PyVal :=
    match g2 with
    | some g => if d2.descMapped then g.desc else PyVal.str []
    | none => PyVal.str []
  let du : Str := if k.2 = lit "UNASSIGNED" then [] else k.2
  { PartNumber := k.1,
    Status := (classifyB q1 q2).1,
    Issues := (classifyB q1 q2).2,
    SAPQuantity := g1.map GLine.qty, HPLMQuantity := g2.map GLine.qty,
    SAPUnit := du, HPLMUnit := du,
    SAPDescription := desc1, HPLMDescription := desc2 }

/-- `compare_boms`, parametrized by the iteration order of the unioned key
set: the source iterates a Python `set`, whose order is determined by the
runtime's per-process string hashing, so the embedding takes the order the
runtime would produce as an explicit argument (constrained by
`KeyOrder`). -/
def compare_boms (d1 d2 : Dataset) (order : List RKey) : List RRow :=
  order.map (emitRow d1 d2)

/-- An iteration order the runtime could produce for the unioned key set:
each key exactly once. -/
def KeyOrder (d1 d2 : Dataset) (order : List RKey) : Prop :=
  order.Nodup ∧ order.toFinset = allKeys d1 d2

instance (d1 d2 : Dataset) (order : List RKey) : Decidable (KeyOrder d1 d2 order) :=
  instDecidableAnd

/-- `generate_status_report` reads only the `Status` column; its input is
modelled as that column (one optional string per row, `none` for a missing
status, which `str.contains(..., na=False)` counts as no match). -/
def containsMark (m : Str) : Option Str → Bool
  | none => false
  | some t => cpSub m t

/-- The dictionary returned by `generate_status_report`, with its keys as
fields: `Total Materiales`, `Correctos`, `Faltantes/Diferencias (-)`,
`Sobrantes/Excedentes (+)`, `Total con Problemas`, `Porcentaje Correcto`,
`Porcentaje con Problemas`, `Faltantes en SAP`, `Faltantes en Software B`,
`Discrepancias`. -/
structure StatusReport where
  totalMateriales : Nat
  correctos : Nat
  faltantes : Nat
  sobrantes : Nat
  totalProblemas : Nat
  pctCorrecto : ℚ
  pctProblemas : ℚ
  faltantesSAP : Nat
  faltantesSoftwareB : Nat
  discrepancias : Nat
deriving DecidableEq

/-- `generate_status_report` of `bom_comparator.py`: substring-based counts
over the `Status` column and percentages guarded against an empty input. -/
def generate_status_report (sts : List (Option Str)) : StatusReport :=
  let total := sts.length
  let correct := sts.countP (containsMark (lit "Correcto"))
  let falta := sts.countP (containsMark (lit "Falta"))
  let sobra := sts.countP (containsMark (lit "Sobra"))
  let totalIssues := falta + sobra
  { totalMateriales := total,
    correctos := correct,
    faltantes := falta,
    sobrantes := sobra,
    totalProblemas := totalIssues,
    pctCorrecto := pyRound2 (if 0 < total then (correct : ℚ) / total * 100 else 0),
    pctProblemas := pyRound2 (if 0 < total then (totalIssues : ℚ) / total * 100 else 0),
    faltantesSAP := 0,
    faltantesSoftwareB := falta,
    discrepancias := sobra }

/-!
Embedding of `modules/column_mapper.py`.
-/

/-- `SIMILARITY_THRESHOLD` from `config.py`. -/
def SIMILARITY_THRESHOLD : ℚ := 4 / 5

/-- `COLUMN_PATTERNS["part_number"]` from `config.py` (the generic table
used by `map_bom_columns`). -/
def partPatterns : List Str :=
  [lit "Component number", lit "ERP Part Number", lit "material no.", lit "part number"]

/-- `COLUMN_PATTERNS["quantity"]` from `config.py`. -/
def quantityPatterns : List Str := [lit "Component quantity", lit "Quantity", lit "qty"]

/-- `COLUMN_PATTERNS["unit"]` from `config.py`. -/
def unitPatterns : List Str := [lit "Component UoM", lit "Unit Of Measure", lit "unit"]

/-- `COLUMN_PATTERNS["description"]` from `config.py`. -/
def descPatterns : List Str := [lit "Description", lit "description"]

/-- The inner pattern loop of `find_similar_columns` for one column.  `sim`
models `SequenceMatcher(None, a, b).ratio()` (an external library routine,
abstracted as a parameter); `calculate_similarity` lower-cases both
arguments before calling it.  `Except.error` models the early `return col,
1.0` on an exact match; `Except.ok` carries the running
`(best_match, best_score)`. -/
def fscPats (sim : Str → Str → ℚ) (thr : ℚ) (colRaw colLow : Str) :
    List Str → Option Str × ℚ → Except (Option Str × ℚ) (Option Str × ℚ)
  | [], acc => Except.ok acc
  | pat :: pats, acc =>
      let patLow := pyLower pat
      if colLow = patLow then Except.error (some colRaw, 1)
      else
        let acc1 :=
          if (cpSub patLow colLow || cpSub colLow patLow) = true ∧ (9 : ℚ) / 10 > acc.2
          then (some colRaw, (9 : ℚ) / 10) else acc
        let s := sim (pyLower colLow) (pyLower pat)
        let acc2 := if s > acc1.2 ∧ s ≥ thr then (some colRaw, s) else acc1
        fscPats sim thr colRaw colLow pats acc2

/-- The outer column loop of `find_similar_columns`.  Per column the source
computes `str(col).lower().strip()` before matching. -/
def fscCols (sim : Str → Str → ℚ) (thr : ℚ) (pats : List Str) :
    List Str → Option Str × ℚ → Option Str × ℚ
  | [], acc => acc
  | c :: cs, acc =>
      match fscPats sim thr c (pyStrip (pyLower c)) pats acc with
      | Except.error r => r
      | Except.ok acc2 => fscCols sim thr pats cs acc2

/-- `find_similar_columns` of `column_mapper.py`. -/
def find_similar_columns (sim : Str → Str → ℚ) (cols pats : List Str) (thr : ℚ) :
    Option Str × ℚ :=
  fscCols sim thr pats cols (none, 0)

/-- One canonical field's entry in a mapping: chosen raw column (or none)
and confidence. -/
structure FieldMap where
  column : Option Str
  confidence : ℚ
deriving DecidableEq

/-- The `if matched_col:` step of `map_bom_columns`: a truthy (non-empty)
matched column is recorded with its confidence; otherwise the field is
unmapped with confidence 0 and is appended to `missing_columns` (the
returned flag). -/
def mkField (res : Option Str × ℚ) : FieldMap × Bool :=
  match res with
  | (some c, conf) => if c ≠ [] then (⟨some c, conf⟩, false) else (⟨none, 0⟩, true)
  | (none, _) => (⟨none, 0⟩, true)

/-- The mapping dictionary built by `map_bom_columns`. -/
structure BomMapping where
  part_number : FieldMap
  quantity : FieldMap
  unit : FieldMap
  description : FieldMap
  is_valid : Bool
  missing_columns : List Str
  source_name : Str
deriving DecidableEq

/-- `map_bom_columns` of `column_mapper.py` over the DataFrame's column
names, with the similarity routine abstracted as `sim`.  Fields are
processed in the insertion order of `COLUMN_PATTERNS`; `is_valid` is
`mapping["part_number"]["column"] is not None`. -/
def map_bom_columns (sim : Str → Str → ℚ) (cols : List Str) (src : Str) : BomMapping :=
  let p := mkField (find_similar_columns sim cols partPatterns SIMILARITY_THRESHOLD)
  let q := mkField (find_similar_columns sim cols quantityPatterns SIMILARITY_THRESHOLD)
  let u := mkField (find_similar_columns sim cols unitPatterns SIMILARITY_THRESHOLD)
  let d := mkField (find_similar_columns sim cols descPatterns SIMILARITY_THRESHOLD)
  { part_number := p.1, quantity := q.1, unit := u.1, description := d.1,
    is_valid := p.1.column.isSome,
    missing_columns :=
      (if p.2 then [lit "part_number"] else []) ++
      (if q.2 then [lit "quantity"] else []) ++
      (if u.2 then [lit "unit"] else []) ++
      (if d.2 then [lit "description"] else []),
    source_name := src }

/-- `", ".join(...)`. -/
def joinComma : List Str → Str
  | [] => []
  | [a] => a
  | a :: rest => a ++ lit ", " ++ joinComma rest

/-- `validate_mapping` of `column_mapper.py`: reject an invalid mapping
naming the missing fields; reject a part-number confidence below the
similarity threshold naming the value; accept otherwise. -/
def validate_mapping (m : BomMapping) : Bool × Str :=
  if m.is_valid = false then
    (false, lit "No se pudo mapear columnas críticas: " ++ joinComma m.missing_columns)
  else if m.part_number.confidence < SIMILARITY_THRESHOLD then
    (false, lit "Confianza baja en mapeo de Part Number (" ++
      fmt2 m.part_number.confidence ++ lit ")")
  else (true, [])

/-!
Concrete inputs used by witnesses and counterexamples.
-/

/-- An empty BOM side. -/
def dEmpty : Dataset := ⟨[], true, true⟩

/-- A side holding only part `P3` with quantity 3 (spec scenario C). -/
def dP3 : Dataset := ⟨[⟨PyVal.str (lit "P3"), PyVal.num 3, PyVal.nan, PyVal.nan⟩], true, true⟩

/-- The reconciliation key of `dP3` (missing unit normalizes to `""`). -/
def kP3 : RKey := (lit "P3", [])

/-- The grouped line `dP3` produces. -/
def gP3 : GLine := ⟨PyVal.str (lit "P3"), [], 3, PyVal.nan⟩

/-- Reference side of spec scenario B: `P2` with quantity 100. -/
def dB1 : Dataset := ⟨[⟨PyVal.str (lit "P2"), PyVal.num 100, PyVal.nan, PyVal.nan⟩], true, true⟩

/-- Comparison side of spec scenario B: `P2` with quantity 95. -/
def dB2 : Dataset := ⟨[⟨PyVal.str (lit "P2"), PyVal.num 95, PyVal.nan, PyVal.nan⟩], true, true⟩

/-- The reconciliation key of scenario B. -/
def kB : RKey := (lit "P2", [])

/-- A side holding parts `P1` and `P2`, producing a two-element key set. -/
def dTwo : Dataset :=
  ⟨[⟨PyVal.str (lit "P1"), PyVal.num 1, PyVal.nan, PyVal.nan⟩,
    ⟨PyVal.str (lit "P2"), PyVal.num 2, PyVal.nan, PyVal.nan⟩], true, true⟩

/-- A similarity stub for witnesses (a `SequenceMatcher` model that scores
every pair 0, so only the exact and substring rules fire). -/
def simZero : Str → Str → ℚ := fun _ _ => 0

/-- A mapping whose part number is mapped but with confidence one half,
below the similarity threshold. -/
def mLowConf : BomMapping :=
  ⟨⟨some (lit "Component number"), mkRat 1 2⟩, ⟨none, 0⟩, ⟨none, 0⟩, ⟨none, 0⟩,
    true, [], lit "SAP"⟩

/-- A mapping whose part number is mapped with full confidence. -/
def mGood : BomMapping :=
  ⟨⟨some (lit "Component number"), 1⟩, ⟨none, 0⟩, ⟨none, 0⟩, ⟨none, 0⟩,
    true, [lit "quantity", lit "unit", lit "description"], lit "SAP"⟩

/-- Exactly one of the three status markers that `generate_status_report`
counts by substring search occurs in the status text (every status
`compare_boms` emits has this shape). -/
def exactlyOneMark (s : Option Str) : Prop :=
  (containsMark (lit "Correcto") s = true ∧ containsMark (lit "Falta") s = false ∧
      containsMark (lit "Sobra") s = false) ∨
    (containsMark (lit "Correcto") s = false ∧ containsMark (lit "Falta") s = true ∧
      containsMark (lit "Sobra") s = false) ∨
    (containsMark (lit "Correcto") s = false ∧ containsMark (lit "Falta") s = false ∧
      containsMark (lit "Sobra") s = true)

instance (s : Option Str) : Decidable (exactlyOneMark s) := by
  unfold exactlyOneMark
  infer_instance

/-!
Proof infrastructure.

Core marks the rational operations `@[irreducible]`, which blocks `decide`
at elaboration time (the kernel itself reduces them fine); restore the
default transparency so concrete evaluations go through. -/
set_option allowUnsafeReducibility true
attribute [local semireducible] Rat.add Rat.mul Rat.sub Rat.inv

/-!
Helper lemmas on the string models.
-/

theorem isSpaceCp_ge (n : Nat) (h : 33 ≤ n) : isSpaceCp n = false := by
  unfold isSpaceCp
  simp only [Bool.or_eq_false_iff, beq_eq_false_iff_ne]
  omega

theorem isSpaceCp_upCp (n : Nat) : isSpaceCp (upCp n) = isSpaceCp n := by
  unfold upCp
  by_cases h : (97 ≤ n && n ≤ 122) = true
  · simp only [h, if_true]
    simp only [Bool.and_eq_true, decide_eq_true_eq] at h
    rw [isSpaceCp_ge _ (by omega), isSpaceCp_ge _ (by omega)]
  · simp [h]

theorem upCp_idem (n : Nat) : upCp (upCp n) = upCp n := by
  unfold upCp
  by_cases h : (97 ≤ n && n ≤ 122) = true
  · simp only [h, if_true]
    simp only [Bool.and_eq_true, decide_eq_true_eq] at h
    rw [if_neg]
    simp only [Bool.and_eq_true, decide_eq_true_eq, not_and]
    omega
  · simp [h]

theorem pyUpper_idem (s : Str) : pyUpper (pyUpper s) = pyUpper s := by
  unfold pyUpper
  rw [List.map_map]
  exact List.map_congr_left (fun n _ => upCp_idem n)

theorem pyStrip_eq_rdrop (s : Str) :
    pyStrip s = List.rdropWhile isSpaceCp (List.dropWhile isSpaceCp s) := rfl

theorem dropWhile_rdropWhile_dropWhile (p : Nat → Bool) (l : Str) :
    List.dropWhile p (List.rdropWhile p (List.dropWhile p l)) =
      List.rdropWhile p (List.dropWhile p l) := by
  rcases List.rdropWhile_prefix p (List.dropWhile p l) with ⟨r, hr⟩
  cases hu : List.rdropWhile p (List.dropWhile p l) with
  | nil => rfl
  | cons a u2 =>
      have ht : List.dropWhile p l = a :: (u2 ++ r) := by
        rw [← hr, hu]; rfl
      have hne : List.dropWhile p l ≠ [] := by rw [ht]; exact List.cons_ne_nil _ _
      have hpa : p a = false := by
        have := List.head_dropWhile_not p l hne
        rwa [show (List.dropWhile p l).head hne = a by rw [List.head_eq_iff_head?_eq_some]; rw [ht]; rfl]
          at this
      simp [List.dropWhile_cons, hpa]

theorem pyStrip_idem (s : Str) : pyStrip (pyStrip s) = pyStrip s := by
  rw [pyStrip_eq_rdrop, pyStrip_eq_rdrop, dropWhile_rdropWhile_dropWhile,
    List.rdropWhile_idempotent]

theorem pyStrip_pyUpper (s : Str) : pyStrip (pyUpper s) = pyUpper (pyStrip s) := by
  have hp : (isSpaceCp ∘ upCp) = isSpaceCp := funext isSpaceCp_upCp
  unfold pyStrip pyUpper
  rw [List.dropWhile_map, hp, ← List.map_reverse, List.dropWhile_map, hp, ← List.map_reverse]

theorem normalize_unit_canon (e : Str × List Str) (he : e ∈ unitTable) :
    normalize_unit (PyVal.str e.1) = e.1 ∧ pyStrip e.1 = e.1 ∧ pyUpper e.1 = e.1 := by
  fin_cases he <;> exact ⟨by decide, by decide, by decide⟩

theorem normalize_unit_str_fix (u : Str) (h1 : pyStrip u = u) (h2 : pyUpper u = u)
    (hm : unitTable.find? (fun e => decide (u ∈ e.2)) = none) :
    normalize_unit (PyVal.str u) = u := by
  unfold normalize_unit
  simp only [show pyIsNa (PyVal.str u) = false from rfl, Bool.false_eq_true, if_false]
  have hval : pyUpper (pyStrip (pyStr (PyVal.str u))) = u := by
    show pyUpper (pyStrip u) = u
    rw [h1, h2]
  simp only [hval, hm]

theorem normalize_unit_fixpoints (v : PyVal) :
    normalize_unit (PyVal.str (normalize_unit v)) = normalize_unit v ∧
      pyStrip (normalize_unit v) = normalize_unit v ∧
      pyUpper (normalize_unit v) = normalize_unit v := by
  by_cases hna : pyIsNa v = true
  · have hv : normalize_unit v = [] := by unfold normalize_unit; simp [hna]
    rw [hv]
    exact ⟨by decide, rfl, rfl⟩
  · rw [Bool.not_eq_true] at hna
    cases hfind : unitTable.find? (fun e => decide (pyUpper (pyStrip (pyStr v)) ∈ e.2)) with
    | some e =>
        have hv : normalize_unit v = e.1 := by
          unfold normalize_unit; simp [hna, hfind]
        rw [hv]
        exact normalize_unit_canon e (List.mem_of_find?_eq_some hfind)
    | none =>
        have hv : normalize_unit v = pyUpper (pyStrip (pyStr v)) := by
          unfold normalize_unit; simp [hna, hfind]
        have h1 : pyStrip (normalize_unit v) = normalize_unit v := by
          rw [hv, pyStrip_pyUpper, pyStrip_idem]
        have h2 : pyUpper (normalize_unit v) = normalize_unit v := by
          rw [hv]; exact pyUpper_idem _
        refine ⟨normalize_unit_str_fix _ h1 h2 ?_, h1, h2⟩
        rw [hv]
        exact hfind

/-- C9: `normalize_unit` is idempotent — feeding any output back in returns
it unchanged; moreover every output is already trimmed and upper-cased (so
canonical outputs map to themselves and non-canonical outputs are their own
fixed buckets). -/
theorem normalize_unit_idempotent (x : PyVal) :
    normalize_unit (PyVal.str (normalize_unit x)) = normalize_unit x ∧
      pyStrip (normalize_unit x) = normalize_unit x ∧
      pyUpper (normalize_unit x) = normalize_unit x :=
  normalize_unit_fixpoints x

theorem pyRound2_zero : pyRound2 0 = 0 := by decide

/-- C8: `generate_status_report` computes each percentage as
`count / total * 100` rounded to two decimals, yields 0 for both
percentages when there are no rows (it is a total function, so no
division-by-zero error can escape), and its issues counter is the shortage
count plus the surplus count. -/
theorem status_report_percentages (sts : List (Option Str)) :
    (generate_status_report sts).totalProblemas =
        (generate_status_report sts).faltantes + (generate_status_report sts).sobrantes ∧
      (generate_status_report sts).pctCorrecto =
        (if 0 < (generate_status_report sts).totalMateriales then
          pyRound2 (((generate_status_report sts).correctos : ℚ) /
            ((generate_status_report sts).totalMateriales : ℚ) * 100)
        else 0) ∧
      (generate_status_report sts).pctProblemas =
        (if 0 < (generate_status_report sts).totalMateriales then
          pyRound2 (((generate_status_report sts).totalProblemas : ℚ) /
            ((generate_status_report sts).totalMateriales : ℚ) * 100)
        else 0) := by
  refine ⟨rfl, ?_, ?_⟩ <;>
  · simp only [generate_status_report]
    by_cases h : 0 < sts.length
    · simp [h]
    · simp only [h, if_false]
      exact pyRound2_zero

theorem countP_partition (sts : List (Option Str)) (h : ∀ s ∈ sts, exactlyOneMark s) :
    sts.countP (containsMark (lit "Correcto")) + sts.countP (containsMark (lit "Falta")) +
      sts.countP (containsMark (lit "Sobra")) = sts.length := by
  induction sts with
  | nil => rfl
  | cons a t ih =>
      have ha := h a (List.mem_cons_self a t)
      have ht : ∀ s ∈ t, exactlyOneMark s := fun s hs => h s (List.mem_cons_of_mem a hs)
      have e := ih ht
      simp only [List.countP_cons, List.length_cons]
      rcases ha with ⟨h1, h2, h3⟩ | ⟨h1, h2, h3⟩ | ⟨h1, h2, h3⟩ <;>
        simp only [h1, h2, h3, Bool.false_eq_true, if_true, if_false] <;> omega

theorem classifyB_mark (q1 q2 : ℚ) : exactlyOneMark (some (classifyB q1 q2).1) := by
  unfold classifyB
  split
  · show exactlyOneMark (some (lit "✅ Correcto"))
    decide
  · split
    · show exactlyOneMark (some (lit "❌ Falta"))
      decide
    · show exactlyOneMark (some (lit "⚠️ Sobra"))
      decide

theorem emitRow_status_mark (d1 d2 : Dataset) (k : RKey) :
    exactlyOneMark (some (emitRow d1 d2 k).Status) :=
  classifyB_mark _ _

/-- C3 counterexample: `generate_status_report` counts by substring search
over the status text, so a row whose status contains none of the markers
(here the status `"X"`) is counted in the total but in no category, and the
three counts do not sum to the total. -/
theorem report_partition_counterexample :
    (generate_status_report [some (lit "X")]).correctos +
        (generate_status_report [some (lit "X")]).faltantes +
        (generate_status_report [some (lit "X")]).sobrantes ≠
      (generate_status_report [some (lit "X")]).totalMateriales := by decide

/-- C3 amended: for row sequences in which every row's status text contains
exactly one of the markers `Correcto`, `Falta`, `Sobra` — as does every row
`compare_boms` emits, per the second conjunct — the counts of
`generate_status_report` partition the rows: correct + shortage + surplus
equals the total.  (For arbitrary rows the counts are substring-based and
need not partition.) -/
theorem report_partition_amended (sts : List (Option Str))
    (h : ∀ s ∈ sts, exactlyOneMark s) :
    (generate_status_report sts).correctos + (generate_status_report sts).faltantes +
        (generate_status_report sts).sobrantes =
        (generate_status_report sts).totalMateriales ∧
      ∀ d1 d2 k, exactlyOneMark (some (emitRow d1 d2 k).Status) :=
  ⟨countP_partition sts h, emitRow_status_mark⟩

theorem report_partition_amended_witness :
    (∀ s ∈ [some (lit "✅ Correcto"), some (lit "❌ Falta")], exactlyOneMark s) ∧
      (generate_status_report [some (lit "✅ Correcto"), some (lit "❌ Falta")]).correctos +
          (generate_status_report [some (lit "✅ Correcto"), some (lit "❌ Falta")]).faltantes +
          (generate_status_report [some (lit "✅ Correcto"), some (lit "❌ Falta")]).sobrantes =
        (generate_status_report
          [some (lit "✅ Correcto"), some (lit "❌ Falta")]).totalMateriales :=
  ⟨by decide, (report_partition_amended _ (by decide)).1⟩

theorem tolOkB_iff (q1 q2 : ℚ) :
    tolOkB q1 q2 = true ↔
      (if 0 < max q1 q2 then |q1 - q2| ≤ max q1 q2 * QUANTITY_TOLERANCE else q1 = q2) := by
  unfold tolOkB
  by_cases h : 0 < max q1 q2 <;> simp [h]

theorem classifyB_correct (q1 q2 : ℚ) (ht : tolOkB q1 q2 = true) :
    classifyB q1 q2 = (lit "✅ Correcto", lit "OK") := by
  unfold classifyB
  rw [if_pos ht]

theorem classifyB_falta (q1 q2 : ℚ) (ht : tolOkB q1 q2 = false) (hd : 0 < q1 - q2) :
    classifyB q1 q2 =
      (lit "❌ Falta", lit "Falta " ++ formatG (q1 - q2) ++ lit " en HPLM") := by
  unfold classifyB
  rw [ht, if_neg (by simp), if_pos hd]

theorem classifyB_sobra (q1 q2 : ℚ) (ht : tolOkB q1 q2 = false) (hd : ¬ 0 < q1 - q2) :
    classifyB q1 q2 =
      (lit "⚠️ Sobra", lit "Sobra " ++ formatG |q1 - q2| ++ lit " en HPLM") := by
  unfold classifyB
  rw [ht, if_neg (by simp), if_neg hd]

theorem emitRow_status_issues (d1 d2 : Dataset) (k : RKey) (q1 q2 : ℚ)
    (h1 : ((lookupG d1 k).map GLine.qty).getD 0 = q1)
    (h2 : ((lookupG d2 k).map GLine.qty).getD 0 = q2) :
    (emitRow d1 d2 k).Status = (classifyB q1 q2).1 ∧
      (emitRow d1 d2 k).Issues = (classifyB q1 q2).2 := by
  rw [← h1, ← h2]
  exact ⟨rfl, rfl⟩

theorem emitRow_eq_correct (d1 d2 : Dataset) (k : RKey) (q1 q2 : ℚ)
    (h1 : ((lookupG d1 k).map GLine.qty).getD 0 = q1)
    (h2 : ((lookupG d2 k).map GLine.qty).getD 0 = q2)
    (ht : tolOkB q1 q2 = true) :
    (emitRow d1 d2 k).Status = lit "✅ Correcto" ∧ (emitRow d1 d2 k).Issues = lit "OK" := by
  obtain ⟨e1, e2⟩ := emitRow_status_issues d1 d2 k q1 q2 h1 h2
  rw [e1, e2, classifyB_correct q1 q2 ht]
  exact ⟨rfl, rfl⟩

theorem emitRow_eq_falta (d1 d2 : Dataset) (k : RKey) (q1 q2 : ℚ)
    (h1 : ((lookupG d1 k).map GLine.qty).getD 0 = q1)
    (h2 : ((lookupG d2 k).map GLine.qty).getD 0 = q2)
    (ht : tolOkB q1 q2 = false) (hd : 0 < q1 - q2) :
    (emitRow d1 d2 k).Status = lit "❌ Falta" ∧
      (emitRow d1 d2 k).Issues = lit "Falta " ++ formatG (q1 - q2) ++ lit " en HPLM" := by
  obtain ⟨e1, e2⟩ := emitRow_status_issues d1 d2 k q1 q2 h1 h2
  rw [e1, e2, classifyB_falta q1 q2 ht hd]
  exact ⟨rfl, rfl⟩

theorem emitRow_eq_sobra (d1 d2 : Dataset) (k : RKey) (q1 q2 : ℚ)
    (h1 : ((lookupG d1 k).map GLine.qty).getD 0 = q1)
    (h2 : ((lookupG d2 k).map GLine.qty).getD 0 = q2)
    (ht : tolOkB q1 q2 = false) (hd : ¬ 0 < q1 - q2) :
    (emitRow d1 d2 k).Status = lit "⚠️ Sobra" ∧
      (emitRow d1 d2 k).Issues = lit "Sobra " ++ formatG |q1 - q2| ++ lit " en HPLM" := by
  obtain ⟨e1, e2⟩ := emitRow_status_issues d1 d2 k q1 q2 h1 h2
  rw [e1, e2, classifyB_sobra q1 q2 ht hd]
  exact ⟨rfl, rfl⟩

/-- C1: for every reconciliation key, with difference = SAP quantity minus
HPLM quantity (a side's missing quantity read as 0): the row is correct
with issue `OK` iff the difference is within the tolerance band
(`max(q1, q2) × tolerance` when that max is positive, exact equality
otherwise); otherwise a positive difference yields status `Falta` with the
shortfall in the issue text and a negative difference yields `Sobra` with
the excess; and status and issue are a pure function of the two
quantities. -/
theorem bom_status_classification (d1 d2 : Dataset) (k : RKey) (q1 q2 : ℚ)
    (h1 : ((lookupG d1 k).map GLine.qty).getD 0 = q1)
    (h2 : ((lookupG d2 k).map GLine.qty).getD 0 = q2) :
    (((emitRow d1 d2 k).Status = lit "✅ Correcto" ∧ (emitRow d1 d2 k).Issues = lit "OK") ↔
        (if 0 < max q1 q2 then |q1 - q2| ≤ max q1 q2 * QUANTITY_TOLERANCE else q1 = q2)) ∧
      (¬ (if 0 < max q1 q2 then |q1 - q2| ≤ max q1 q2 * QUANTITY_TOLERANCE else q1 = q2) →
        0 < q1 - q2 →
          (emitRow d1 d2 k).Status = lit "❌ Falta" ∧
            (emitRow d1 d2 k).Issues = lit "Falta " ++ formatG (q1 - q2) ++ lit " en HPLM") ∧
      (¬ (if 0 < max q1 q2 then |q1 - q2| ≤ max q1 q2 * QUANTITY_TOLERANCE else q1 = q2) →
        q1 - q2 < 0 →
          (emitRow d1 d2 k).Status = lit "⚠️ Sobra" ∧
            (emitRow d1 d2 k).Issues = lit "Sobra " ++ formatG |q1 - q2| ++ lit " en HPLM") ∧
      (∀ d3 d4 k2, ((lookupG d3 k2).map GLine.qty).getD 0 = q1 →
        ((lookupG d4 k2).map GLine.qty).getD 0 = q2 →
          (emitRow d3 d4 k2).Status = (emitRow d1 d2 k).Status ∧
            (emitRow d3 d4 k2).Issues = (emitRow d1 d2 k).Issues) := by
  by_cases ht : tolOkB q1 q2 = true
  · have hc := emitRow_eq_correct d1 d2 k q1 q2 h1 h2 ht
    refine ⟨⟨fun _ => (tolOkB_iff q1 q2).mp ht, fun _ => hc⟩, ?_, ?_, ?_⟩
    · intro hno
      exact absurd ((tolOkB_iff q1 q2).mp ht) hno
    · intro hno
      exact absurd ((tolOkB_iff q1 q2).mp ht) hno
    · intro d3 d4 k2 h1a h2a
      have hca := emitRow_eq_correct d3 d4 k2 q1 q2 h1a h2a ht
      rw [hca.1, hca.2, hc.1, hc.2]
      exact ⟨by trivial, by trivial⟩
  · rw [Bool.not_eq_true] at ht
    have hno : ¬ (if 0 < max q1 q2 then |q1 - q2| ≤ max q1 q2 * QUANTITY_TOLERANCE
        else q1 = q2) := by
      intro hc
      rw [← tolOkB_iff] at hc
      rw [ht] at hc
      exact Bool.false_ne_true hc
    by_cases hd : 0 < q1 - q2
    · have hf := emitRow_eq_falta d1 d2 k q1 q2 h1 h2 ht hd
      refine ⟨⟨fun hcon => ?_, fun hc => absurd hc hno⟩, fun _ _ => hf, ?_, ?_⟩
      · rw [hf.1] at hcon
        exact absurd hcon.1 (by decide)
      · intro _ hneg
        exact absurd hd (by linarith)
      · intro d3 d4 k2 h1a h2a
        have hfa := emitRow_eq_falta d3 d4 k2 q1 q2 h1a h2a ht hd
        rw [hfa.1, hfa.2, hf.1, hf.2]
        exact ⟨by trivial, by trivial⟩
    · have hs := emitRow_eq_sobra d1 d2 k q1 q2 h1 h2 ht hd
      refine ⟨⟨fun hcon => ?_, fun hc => absurd hc hno⟩, fun _ hpos => absurd hpos hd,
        fun _ _ => hs, ?_⟩
      · rw [hs.1] at hcon
        exact absurd hcon.1 (by decide)
      · intro d3 d4 k2 h1a h2a
        have hsa := emitRow_eq_sobra d3 d4 k2 q1 q2 h1a h2a ht hd
        rw [hsa.1, hsa.2, hs.1, hs.2]
        exact ⟨by trivial, by trivial⟩

theorem bom_status_classification_witness :
    ((lookupG dB1 kB).map GLine.qty).getD 0 = 100 ∧
      ((lookupG dB2 kB).map GLine.qty).getD 0 = 95 ∧
      ¬ (if 0 < max (100 : ℚ) 95 then
          |(100 : ℚ) - 95| ≤ max (100 : ℚ) 95 * QUANTITY_TOLERANCE else (100 : ℚ) = 95) ∧
      (emitRow dB1 dB2 kB).Status = lit "❌ Falta" ∧
      (emitRow dB1 dB2 kB).Issues = lit "Falta 5 en HPLM" := by
  have h1 : ((lookupG dB1 kB).map GLine.qty).getD 0 = 100 := by decide
  have h2 : ((lookupG dB2 kB).map GLine.qty).getD 0 = 95 := by decide
  have hno : ¬ (if 0 < max (100 : ℚ) 95 then
      |(100 : ℚ) - 95| ≤ max (100 : ℚ) 95 * QUANTITY_TOLERANCE else (100 : ℚ) = 95) := by
    decide
  have hp := (bom_status_classification dB1 dB2 kB 100 95 h1 h2).2.1 hno (by decide)
  refine ⟨h1, h2, hno, hp.1, ?_⟩
  rw [hp.2]
  decide

theorem emitRow_quantities (d1 d2 : Dataset) (k : RKey) :
    (emitRow d1 d2 k).SAPQuantity = (lookupG d1 k).map GLine.qty ∧
      (emitRow d1 d2 k).HPLMQuantity = (lookupG d2 k).map GLine.qty :=
  ⟨rfl, rfl⟩

theorem tolOkB_zero_left (q : ℚ) (h : 0 < q) : tolOkB 0 q = false := by
  unfold tolOkB
  rw [max_eq_right h.le, if_pos h, decide_eq_false]
  intro hc
  rw [zero_sub, abs_neg, abs_of_pos h] at hc
  unfold QUANTITY_TOLERANCE at hc
  linarith

/-- C5: a key present on only one side still yields a row; the absent
side's quantity field is `None` (while a side that has the key with
quantity 0 records the number 0, a distinct value), and classification
reads the absent side as 0 — in particular with no reference entry and a
positive comparison quantity `q` the signed difference is `-q`, the status
is the surplus marker and the issue text reports the excess `q`. -/
theorem absent_side_null_and_surplus (d1 d2 : Dataset) (k : RKey) :
    (lookupG d1 k = none → (emitRow d1 d2 k).SAPQuantity = none) ∧
      (∀ g, lookupG d1 k = some g → (emitRow d1 d2 k).SAPQuantity = some g.qty) ∧
      (lookupG d2 k = none → (emitRow d1 d2 k).HPLMQuantity = none) ∧
      (∀ g, lookupG d2 k = some g → (emitRow d1 d2 k).HPLMQuantity = some g.qty) ∧
      (lookupG d1 k = none → ∀ g, lookupG d2 k = some g → 0 < g.qty →
        (emitRow d1 d2 k).Status = lit "⚠️ Sobra" ∧
          (emitRow d1 d2 k).Issues = lit "Sobra " ++ formatG g.qty ++ lit " en HPLM") := by
  obtain ⟨hq1, hq2⟩ := emitRow_quantities d1 d2 k
  refine ⟨?_, ?_, ?_, ?_, ?_⟩
  · intro h
    rw [hq1, h]
    rfl
  · intro g h
    rw [hq1, h]
    rfl
  · intro h
    rw [hq2, h]
    rfl
  · intro g h
    rw [hq2, h]
    rfl
  · intro h1 g h2 hg
    have e1 : ((lookupG d1 k).map GLine.qty).getD 0 = 0 := by rw [h1]; rfl
    have e2 : ((lookupG d2 k).map GLine.qty).getD 0 = g.qty := by rw [h2]; rfl
    have hs := emitRow_eq_sobra d1 d2 k 0 g.qty e1 e2 (tolOkB_zero_left g.qty hg)
      (by intro hc; rw [zero_sub] at hc; linarith)
    refine ⟨hs.1, ?_⟩
    rw [hs.2, zero_sub, abs_neg, abs_of_pos hg]

theorem absent_side_null_and_surplus_witness :
    lookupG dEmpty kP3 = none ∧ lookupG dP3 kP3 = some gP3 ∧ (0 : ℚ) < gP3.qty ∧
      (emitRow dEmpty dP3 kP3).SAPQuantity = none ∧
      (emitRow dEmpty dP3 kP3).HPLMQuantity = some 3 ∧
      (emitRow dEmpty dP3 kP3).Status = lit "⚠️ Sobra" ∧
      (emitRow dEmpty dP3 kP3).Issues = lit "Sobra 3 en HPLM" := by
  have hn : lookupG dEmpty kP3 = none := by decide
  have hs : lookupG dP3 kP3 = some gP3 := by decide
  have hq : (0 : ℚ) < gP3.qty := by decide
  obtain ⟨a1, a2, a3, a4, a5⟩ := absent_side_null_and_surplus dEmpty dP3 kP3
  have hst := a5 hn gP3 hs hq
  refine ⟨hn, hs, hq, a1 hn, ?_, hst.1, ?_⟩
  · rw [a4 gP3 hs]
    rfl
  · rw [hst.2]
    decide

/-- C10: in every row `compare_boms` emits, the reference-side and
comparison-side unit fields are equal — both display the key's normalized
unit, or the empty string when the unit is the unassigned marker — so no
row ever shows two different unit strings. -/
theorem row_units_equal (d1 d2 : Dataset) (k : RKey) (order : List RKey) :
    (emitRow d1 d2 k).SAPUnit = (emitRow d1 d2 k).HPLMUnit ∧
      (emitRow d1 d2 k).SAPUnit = (if k.2 = lit "UNASSIGNED" then [] else k.2) ∧
      (∀ r ∈ compare_boms d1 d2 order, r.SAPUnit = r.HPLMUnit) := by
  have hu : ∀ d3 d4 : Dataset, ∀ k2 : RKey,
      (emitRow d3 d4 k2).SAPUnit = (if k2.2 = lit "UNASSIGNED" then [] else k2.2) ∧
        (emitRow d3 d4 k2).HPLMUnit = (if k2.2 = lit "UNASSIGNED" then [] else k2.2) := by
    intro d3 d4 k2
    exact ⟨rfl, rfl⟩
  refine ⟨?_, (hu d1 d2 k).1, ?_⟩
  · rw [(hu d1 d2 k).1, (hu d1 d2 k).2]
  · intro r hr
    obtain ⟨k2, _, rfl⟩ := List.mem_map.mp hr
    rw [(hu d1 d2 k2).1, (hu d1 d2 k2).2]

theorem row_units_equal_witness :
    (emitRow dB1 dB2 kB) ∈ compare_boms dB1 dB2 [kB] ∧
      (emitRow dB1 dB2 kB).SAPUnit = (emitRow dB1 dB2 kB).HPLMUnit := by
  have hm : (emitRow dB1 dB2 kB) ∈ compare_boms dB1 dB2 [kB] := by
    exact List.mem_map_of_mem _ (List.mem_singleton_self kB)
  exact ⟨hm, (row_units_equal dB1 dB2 kB [kB]).2.2 (emitRow dB1 dB2 kB) hm⟩

/-- C2: under any iteration order of the unioned key set, `compare_boms`
emits exactly one row per key of the union of the two sides' grouped
`(part, unit)` key sets — the row count equals the union's cardinality,
every union key's row appears, and every emitted row is some union key's
row, so no key is dropped and none is invented. -/
theorem bom_keyset_union (d1 d2 : Dataset) (order : List RKey)
    (h : KeyOrder d1 d2 order) :
    (compare_boms d1 d2 order).length = (allKeys d1 d2).card ∧
      (∀ k ∈ allKeys d1 d2, emitRow d1 d2 k ∈ compare_boms d1 d2 order) ∧
      (∀ r ∈ compare_boms d1 d2 order, ∃ k ∈ allKeys d1 d2, r = emitRow d1 d2 k) := by
  obtain ⟨hnd, hset⟩ := h
  refine ⟨?_, ?_, ?_⟩
  · rw [compare_boms, List.length_map, ← hset, List.toFinset_card_of_nodup hnd]
  · intro k hk
    rw [← hset, List.mem_toFinset] at hk
    exact List.mem_map_of_mem _ hk
  · intro r hr
    obtain ⟨k, hk, rfl⟩ := List.mem_map.mp hr
    refine ⟨k, ?_, rfl⟩
    rw [← hset, List.mem_toFinset]
    exact hk

theorem bom_keyset_union_witness :
    KeyOrder dP3 dEmpty [kP3] ∧
      (compare_boms dP3 dEmpty [kP3]).length = (allKeys dP3 dEmpty).card :=
  ⟨by decide, (bom_keyset_union dP3 dEmpty [kP3] (by decide)).1⟩

/-- C6: the key iteration order of `compare_boms` is a raw Python set, so
both listed orders are orders the runtime may produce for the same two
input datasets, and they yield different output row sequences — the emitted
row order is not a function of the inputs alone. -/
theorem keyorder_nondeterminism :
    KeyOrder dTwo dEmpty [(lit "P1", []), (lit "P2", [])] ∧
      KeyOrder dTwo dEmpty [(lit "P2", []), (lit "P1", [])] ∧
      compare_boms dTwo dEmpty [(lit "P1", []), (lit "P2", [])] ≠
        compare_boms dTwo dEmpty [(lit "P2", []), (lit "P1", [])] := by
  refine ⟨by decide, by decide, ?_⟩
  intro hc
  have h0 : (compare_boms dTwo dEmpty [(lit "P1", []), (lit "P2", [])]).map RRow.PartNumber =
      (compare_boms dTwo dEmpty [(lit "P2", []), (lit "P1", [])]).map RRow.PartNumber := by
    rw [hc]
  revert h0
  decide

/-- C7: `validate_quantity` coerces its inputs to numbers with missing
values read as 0; on two coerced numbers it returns true when both are
zero, false when exactly one is zero, and otherwise compares the relative
difference `|q1 − q2| / max(q1, q2)` against the tolerance inclusively;
when a coercion raises (a non-numeric string), it falls back to exact
string equality of the `str`-renderings after trimming. -/
theorem validate_quantity_spec (v1 v2 : PyVal) (tol : ℚ) :
    (∀ a b, coerceQ v1 = some a → coerceQ v2 = some b →
        validate_quantity v1 v2 tol =
          (if a = 0 ∧ b = 0 then true
            else if a = 0 ∨ b = 0 then false
            else decide (|a - b| / max a b ≤ tol))) ∧
      ((coerceQ v1 = none ∨ coerceQ v2 = none) →
        validate_quantity v1 v2 tol = decide (pyStrip (pyStr v1) = pyStrip (pyStr v2))) ∧
      (pyIsNa v1 = true → coerceQ v1 = some 0) ∧
      (∀ q, v1 = PyVal.num q → coerceQ v1 = some q) := by
  refine ⟨?_, ?_, ?_, ?_⟩
  · intro a b ha hb
    unfold validate_quantity
    rw [ha, hb]
  · intro h
    cases h1x : coerceQ v1 with
    | none => unfold validate_quantity; rw [h1x]
    | some a =>
        cases h2x : coerceQ v2 with
        | none => unfold validate_quantity; rw [h1x, h2x]
        | some b =>
            rcases h with h | h
            · rw [h1x] at h; exact absurd h (by simp)
            · rw [h2x] at h; exact absurd h (by simp)
  · intro h
    cases v1 with
    | num q => simp [pyIsNa] at h
    | nan => rfl
    | str s => simp [pyIsNa] at h
  · intro q hq
    rw [hq]
    rfl

theorem validate_quantity_spec_witness :
    coerceQ (PyVal.num 100) = some 100 ∧ coerceQ (PyVal.num 99) = some 99 ∧
      validate_quantity (PyVal.num 100) (PyVal.num 99) (mkRat 1 100) =
        (if (100 : ℚ) = 0 ∧ (99 : ℚ) = 0 then true
          else if (100 : ℚ) = 0 ∨ (99 : ℚ) = 0 then false
          else decide (|(100 : ℚ) - 99| / max (100 : ℚ) 99 ≤ mkRat 1 100)) ∧
      coerceQ (PyVal.str (lit "abc")) = none ∧
      validate_quantity (PyVal.str (lit "abc")) (PyVal.num 99) (mkRat 1 100) =
        decide (pyStrip (pyStr (PyVal.str (lit "abc"))) = pyStrip (pyStr (PyVal.num 99))) ∧
      pyIsNa PyVal.nan = true ∧ coerceQ PyVal.nan = some 0 := by
  have h1 := (validate_quantity_spec (PyVal.num 100) (PyVal.num 99) (mkRat 1 100)).1
    100 99 rfl rfl
  have hnone : coerceQ (PyVal.str (lit "abc")) = none := by decide
  have h2 := (validate_quantity_spec (PyVal.str (lit "abc")) (PyVal.num 99)
    (mkRat 1 100)).2.1 (Or.inl hnone)
  have h3 := (validate_quantity_spec PyVal.nan (PyVal.num 99) (mkRat 1 100)).2.2.1 rfl
  exact ⟨rfl, rfl, h1, hnone, h2, rfl, h3⟩

/-- C4: the validity flag `map_bom_columns` computes is true exactly when a
raw column was recorded for the part number; and `validate_mapping` fails
naming the missing fields when the mapping is invalid, fails naming the
formatted confidence value when the part number is mapped but its
confidence is below the similarity threshold, and succeeds in every other
case, regardless of the other canonical fields. -/
theorem mapping_validity (sim : Str → Str → ℚ) (cols : List Str) (src : Str)
    (m : BomMapping) :
    ((map_bom_columns sim cols src).is_valid = true ↔
        (map_bom_columns sim cols src).part_number.column ≠ none) ∧
      (m.is_valid = false →
        validate_mapping m =
          (false, lit "No se pudo mapear columnas críticas: " ++
            joinComma m.missing_columns)) ∧
      (m.is_valid = true → m.part_number.confidence < SIMILARITY_THRESHOLD →
        validate_mapping m =
          (false, lit "Confianza baja en mapeo de Part Number (" ++
            fmt2 m.part_number.confidence ++ lit ")")) ∧
      (m.is_valid = true → ¬ m.part_number.confidence < SIMILARITY_THRESHOLD →
        validate_mapping m = (true, [])) := by
  refine ⟨?_, ?_, ?_, ?_⟩
  · simp [map_bom_columns, Option.isSome_iff_ne_none]
  · intro h
    unfold validate_mapping
    rw [if_pos h]
  · intro h hc
    unfold validate_mapping
    rw [if_neg (by rw [h]; simp), if_pos hc]
  · intro h hc
    unfold validate_mapping
    rw [if_neg (by rw [h]; simp), if_neg hc]

theorem mapping_validity_witness :
    (map_bom_columns simZero [lit "Part Number"] (lit "SAP")).is_valid = true ∧
      (map_bom_columns simZero [lit "Part Number"] (lit "SAP")).part_number.column ≠ none ∧
      mLowConf.is_valid = true ∧ mLowConf.part_number.confidence < SIMILARITY_THRESHOLD ∧
      validate_mapping mLowConf =
        (false, lit "Confianza baja en mapeo de Part Number (" ++
          fmt2 mLowConf.part_number.confidence ++ lit ")") ∧
      mGood.is_valid = true ∧ ¬ mGood.part_number.confidence < SIMILARITY_THRESHOLD ∧
      validate_mapping mGood = (true, []) ∧
      (map_bom_columns simZero [lit "zzz"] (lit "SAP")).is_valid = false ∧
      validate_mapping (map_bom_columns simZero [lit "zzz"] (lit "SAP")) =
        (false, lit "No se pudo mapear columnas críticas: " ++
          joinComma (map_bom_columns simZero [lit "zzz"] (lit "SAP")).missing_columns) := by
  have hvalid : (map_bom_columns simZero [lit "Part Number"] (lit "SAP")).is_valid = true := by
    decide
  have hlowv : mLowConf.is_valid = true := rfl
  have hlowc : mLowConf.part_number.confidence < SIMILARITY_THRESHOLD := by decide
  have hgoodv : mGood.is_valid = true := rfl
  have hgoodc : ¬ mGood.part_number.confidence < SIMILARITY_THRESHOLD := by decide
  have hbad : (map_bom_columns simZero [lit "zzz"] (lit "SAP")).is_valid = false := by decide
  refine ⟨hvalid,
    (mapping_validity simZero [lit "Part Number"] (lit "SAP") mGood).1.mp hvalid,
    hlowv, hlowc,
    (mapping_validity simZero [] [] mLowConf).2.2.1 hlowv hlowc,
    hgoodv, hgoodc,
    (mapping_validity simZero [] [] mGood).2.2.2 hgoodv hgoodc,
    hbad,
    (mapping_validity simZero [] [] (map_bom_columns simZero [lit "zzz"] (lit "SAP"))).2.1
      hbad⟩
